import Mathlib

/-!
Shallow embedding of the unimol_tools repository sources
(`pretrain/pretrain_config.py`, `train.py`, `predictor.py`) and proofs
about the behaviour claimed by the specification.

Python values relevant to the embedded code are modelled as follows:
floats that are only ever compared for sign are rationals, Python ints
are `Int`, optional strings are `Option String` with Python truthiness
made explicit, and values that may be either a bool or a str (the
policy parameters of `MolTrain`) are a small `PyVal` sum type.
-/

namespace UnimolTools

/-- Values that the `MolTrain` policy parameters may take in Python:
either a bool (such as the default `False`) or a string policy name. -/
inductive PyVal where
  | pyBool (b : Bool)
  | pyStr (s : String)
deriving DecidableEq, Repr

/-- Python truthiness for `PyVal`: a bool is its own truth value, a
string is truthy exactly when it is nonempty. -/
def PyVal.truthy : PyVal → Bool
  | .pyBool b => b
  | .pyStr s => s ≠ ""

/-- Python `a or b`: returns `a` when `a` is truthy, else `b`. -/
def pyOr (a b : PyVal) : PyVal :=
  if a.truthy then a else b

/-- Python `a in l` for a list literal: membership by equality. -/
def pyIn (a : PyVal) (l : List PyVal) : Bool :=
  l.contains a

/-- Python truthiness of an `Optional[str]`: `None` and the empty
string are falsy, every nonempty string is truthy. -/
def optStrFalsy : Option String → Bool
  | none => true
  | some s => s = ""

/-! ## pretrain/pretrain_config.py -/

/-- Embedding of the `DatasetConfig` dataclass. Floats are rationals. -/
structure DatasetConfig where
  train_lmdb : Option String := none
  train_path : Option String := none
  valid_path : Option String := none
  data_type : String := "lmdb"
  smiles_column : String := "smi"
  valid_lmdb : Option String := none
  dict_path : Option String := none
  remove_hydrogen : Bool := false
  max_atoms : Int := 256
  noise_type : String := "trunc_normal"
  noise : ℚ := 1/10
  mask_prob : ℚ := 3/20
  leave_unmasked_prob : ℚ := 1/10
  random_token_prob : ℚ := 1/10
  unimol_style : Bool := false
  num_conformers : Int := 10
deriving DecidableEq, Repr

/-- Embedding of the `ModelConfig` dataclass. -/
structure ModelConfig where
  model_name : String := "UniMol"
  encoder_layers : Int := 15
  encoder_embed_dim : Int := 512
  encoder_ffn_embed_dim : Int := 2048
  encoder_attention_heads : Int := 64
  dropout : ℚ := 1/10
  emb_dropout : ℚ := 1/10
  attention_dropout : ℚ := 1/10
  activation_dropout : ℚ := 0
  pooler_dropout : ℚ := 0
  max_seq_len : Int := 512
  activation_fn : String := "gelu"
  pooler_activation_fn : String := "tanh"
  post_ln : Bool := false
  masked_token_loss : ℚ := 1
  masked_coord_loss : ℚ := 5
  masked_dist_loss : ℚ := 10
  x_norm_loss : ℚ := 1/100
  delta_pair_repr_norm_loss : ℚ := 1/100
deriving DecidableEq, Repr

/-- Embedding of the `TrainingConfig` dataclass. -/
structure TrainingConfig where
  batch_size : Int := 32
  lr : ℚ := 1/10000
  weight_decay : ℚ := 1/100
  epochs : Int := 10
  save_every_n_epoch : Int := 1
  use_amp : Bool := true
  local_rank : Int := 0
  seed : Int := 42
  resume : Option String := none
deriving DecidableEq, Repr

/-- Embedding of the `PretrainConfig` dataclass. -/
structure PretrainConfig where
  dataset : DatasetConfig := {}
  model : ModelConfig := {}
  training : TrainingConfig := {}
deriving DecidableEq, Repr

/-- Embedding of `PretrainConfig.validate`. Each `raise ValueError`
becomes an `Except.error` carrying the message (quotes around option
values dropped); the checks run in source order and the first failing
check determines the error. -/
def PretrainConfig.validate (c : PretrainConfig) : Except String Unit := do
  if c.dataset.data_type = "lmdb" then
    if optStrFalsy c.dataset.train_lmdb then
      throw "train_lmdb must be specified when data_type is lmdb."
  else
    if optStrFalsy c.dataset.train_path then
      throw "train_path must be specified when data_type is not lmdb."
  if c.model.encoder_layers ≤ 0 then
    throw "encoder_layers must be a positive integer."
  if c.training.batch_size ≤ 0 then
    throw "batch_size must be a positive integer."
  if c.training.lr ≤ 0 then
    throw "Learning rate must be a positive value."

/-! ## train.py: MolTrain -/

namespace MolTrain

/-- Embedding of the config assignment
`config.anomaly_clean = target_anomaly_check or target_anomaly_check in [ 'filter' ]`
from `MolTrain.__init__`. Python `or` returns its first operand when
that operand is truthy, so the result is a `PyVal`, not necessarily a
bool. -/
def anomaly_clean (target_anomaly_check : PyVal) : PyVal :=
  pyOr target_anomaly_check (.pyBool (pyIn target_anomaly_check [.pyStr "filter"]))

/-- Embedding of the config assignment
`config.smi_strict = smiles_check in [ 'filter' ]` from
`MolTrain.__init__`. -/
def smi_strict (smiles_check : PyVal) : Bool :=
  pyIn smiles_check [.pyStr "filter"]

/-- Observable side-effecting steps of `MolTrain.fit` (and of
`update_and_save_config`, which it calls), in the order the method
body performs them. -/
inductive FitStep where
  | dataHubInit
  | configWrite
  | trainerInit
  | modelRun
  | scalerInverse
  | thresholdDump
  | setCvPred
deriving DecidableEq, Repr

/-- Steps of `MolTrain.update_and_save_config`: the yaml write at
`save_path/config.yaml` happens only when `save_path is not None`. -/
def update_and_save_config_steps (savePathSome : Bool) : List FitStep :=
  if savePathSome then [.configWrite] else []

/-- Step trace of `MolTrain.fit`: build the `DataHub`, call
`update_and_save_config`, build the `Trainer` and the `NNModel`, run
training, then invert the target scaler when one was fitted, dump the
classification threshold for the two classification tasks, and set
`cv_pred`. -/
def fit_steps (savePathSome : Bool) (task : String) (scalerSome : Bool) :
    List FitStep :=
  [.dataHubInit] ++ update_and_save_config_steps savePathSome
    ++ [.trainerInit, .modelRun]
    ++ (if scalerSome then [.scalerInverse] else [])
    ++ (if ["classification", "multilabel_classification"].contains task then
          [.thresholdDump] else [])
    ++ [.setCvPred]

/-- A fitted target scaler, abstracted to its `inverse_transform`
method (the only method `MolTrain.fit` calls on it). -/
structure TargetScaler where
  inverseTransform : List ℚ → List ℚ

/-- Data outputs of `MolTrain.fit`: the final `cv_pred` attribute and
the `(y_true, y_pred)` pair handed to
`metrics.calculate_classification_threshold` (present only when the
task is one of the two classification tasks). -/
structure FitOutputs where
  cv_pred : List ℚ
  threshold_input : Option (List ℚ × List ℚ)
deriving Repr

/-- Embedding of the tail of `MolTrain.fit` after `NNModel.run`:
`y_pred` starts as the aggregated raw predictions `self.model.cv[ 'pred' ]`,
`y_true` as `self.data[ 'target' ]`; when `self.data[ 'target_scaler' ]`
is not `None` both are replaced by its inverse transform; the threshold
is computed from the resulting pair for classification tasks; finally
`self.cv_pred = y_pred`. -/
def fit_outputs (task : String) (scaler : Option TargetScaler)
    (model_cv_pred target : List ℚ) : FitOutputs :=
  let y_pred := model_cv_pred
  let y_true := target
  let y_pred := match scaler with
    | some s => s.inverseTransform y_pred
    | none => y_pred
  let y_true := match scaler with
    | some s => s.inverseTransform y_true
    | none => y_true
  { cv_pred := y_pred
    threshold_input :=
      if ["classification", "multilabel_classification"].contains task then
        some (y_true, y_pred)
      else none }

end MolTrain

/-! ## predictor.py: MolDataset and UniMolRepr -/

/-- Embedding of the `MolDataset` class: `data` is the list of data
elements and `label` the list of per-element label rows. -/
structure MolDataset (α : Type) where
  data : List α
  label : List (List ℚ)
deriving Repr

/-- Embedding of `MolDataset.__init__`: when `label` is `None` it is
replaced by `np.zeros((len(data), 1))`, i.e. one zero row of length 1
per data element. -/
def MolDataset.init (data : List α) (label : Option (List (List ℚ))) :
    MolDataset α :=
  { data := data
    label := match label with
      | some l => l
      | none => List.replicate data.length (List.replicate 1 0) }

/-- Embedding of `MolDataset.__getitem__`: returns
`(self.data[idx], self.label[idx])`; out-of-range access is `none`
(an `IndexError` in Python). -/
def MolDataset.getitem (d : MolDataset α) (idx : ℕ) : Option (α × List ℚ) :=
  match d.data[idx]?, d.label[idx]? with
  | some a, some l => some (a, l)
  | _, _ => none

/-- Embedding of `MolDataset.__len__`: `len(self.data)`. -/
def MolDataset.len (d : MolDataset α) : ℕ :=
  d.data.length

/-- Whether a `PyVal` is a Python `str` (`isinstance(x, str)`). -/
def PyVal.isStr : PyVal → Bool
  | .pyStr _ => true
  | .pyBool _ => false

namespace UniMolRepr

/-- The two model classes `UniMolRepr.__init__` can instantiate. -/
inductive ReprModel where
  | uniMolModel
  | uniMolV2Model
deriving DecidableEq, Repr

/-- Embedding of the model dispatch in `UniMolRepr.__init__`:
`model_name == 'unimolv1'` builds a `UniMolModel`,
`'unimolv2'` builds a `UniMolV2Model`, anything else raises
`ValueError('Unknown model name: ...')`. -/
def select_model (model_name : String) : Except String ReprModel :=
  if model_name = "unimolv1" then .ok .uniMolModel
  else if model_name = "unimolv2" then .ok .uniMolV2Model
  else .error "Unknown model name"

/-- The shapes a Python value passed to `UniMolRepr.get_repr` can
have, as far as the input dispatch inspects them: a string, a dict
(observed through its key set), a list or numpy array (observed
through their elements), `None` (the default), or any other value. -/
inductive ReprData where
  | str (s : String)
  | dict (keys : List String)
  | list (elems : List PyVal)
  | ndarray (elems : List PyVal)
  | noneVal
  | otherVal
deriving DecidableEq, Repr

/-- Errors the input dispatch of `get_repr` can raise. -/
inductive ReprCheckError where
  | valueError
  | assertionError
  | indexError
deriving DecidableEq, Repr

/-- Python `s.endswith(suffix)`: character-level suffix test. -/
def pyEndsWith (s suffix : String) : Bool :=
  suffix.data.isSuffixOf s.data

/-- Embedding of the input dispatch at the top of
`UniMolRepr.get_repr`. `csvColumns` stands for the file system: it
gives the column names of the csv file found at a path (the value
`pd.read_csv(data).columns` would have). A string ending in `.sdf`
passes through; a string ending in `.csv` is read and
`assert 'SMILES' in data.columns` runs; any other string is a single
smiles; a dict must contain the `atoms` and `coordinates` keys; a list
asserts `isinstance(data[-1], str)`; a numpy array asserts
`isinstance(data[0], str)`; everything else raises `ValueError`. -/
def get_repr_dispatch (csvColumns : String → List String) :
    ReprData → Except ReprCheckError Unit
  | .str s =>
      if pyEndsWith s ".sdf" then .ok ()
      else if pyEndsWith s ".csv" then
        if (csvColumns s).contains "SMILES" then .ok ()
        else .error .assertionError
      else .ok ()
  | .dict keys =>
      if keys.contains "atoms" && keys.contains "coordinates" then .ok ()
      else .error .assertionError
  | .list elems =>
      match elems.getLast? with
      | some v => if v.isStr then .ok () else .error .assertionError
      | none => .error .indexError
  | .ndarray elems =>
      match elems.head? with
      | some v => if v.isStr then .ok () else .error .assertionError
      | none => .error .indexError
  | .noneVal => .error .valueError
  | .otherVal => .error .valueError

end UniMolRepr

/-! ## Theorems -/

/-- C1: pre-run validation fails on a missing dataset path for the
selected data kind: for every `PretrainConfig`, `validate` raises the
train_lmdb error exactly when `data_type` is lmdb and `train_lmdb` is
unset (Python-falsy: `None` or empty), raises the train_path error
exactly when `data_type` is not lmdb and `train_path` is unset, and
otherwise the dataset-path check passes. -/
theorem pretrain_validate_dataset_path_check (c : PretrainConfig) :
    (c.validate = .error "train_lmdb must be specified when data_type is lmdb." ↔
      c.dataset.data_type = "lmdb" ∧ optStrFalsy c.dataset.train_lmdb = true) ∧
    (c.validate = .error "train_path must be specified when data_type is not lmdb." ↔
      c.dataset.data_type ≠ "lmdb" ∧ optStrFalsy c.dataset.train_path = true) := by
  unfold PretrainConfig.validate
  repeat' split
  all_goals try simp_all
  all_goals
    refine ⟨?_, ?_⟩ <;>
      first
        | rfl
        | (intro h; injection h with h; exact absurd h (by decide))
        | (intro h; injection h)

/-- A `PretrainConfig` whose epoch count is non-positive while the
dataset path and every option `validate` checks are valid. -/
def epochs_zero_config : PretrainConfig :=
  { dataset := { train_lmdb := some "train.lmdb" }
    training := { epochs := 0 } }

/-- C2 counterexample: a config with `epochs = 0` (non-positive) passes
`validate` without error, so a non-positive epoch count is not a fatal
configuration error. -/
theorem pretrain_validate_epochs_counterexample :
    epochs_zero_config.training.epochs ≤ 0 ∧
      epochs_zero_config.validate = Except.ok () := by
  refine ⟨by decide, ?_⟩
  unfold epochs_zero_config PretrainConfig.validate
  norm_num [optStrFalsy]
  rfl

/-- C2 amended: `validate` raises an error for non-positive
`batch_size` and non-positive learning rate, but performs no check on
`training.epochs`: its result is unchanged under any replacement of
the epoch count. -/
theorem pretrain_validate_epochs_unchecked (c : PretrainConfig) (e : Int) :
    (c.training.batch_size ≤ 0 → ∃ msg, c.validate = Except.error msg) ∧
    (c.training.lr ≤ 0 → ∃ msg, c.validate = Except.error msg) ∧
    PretrainConfig.validate
        { c with training := { c.training with epochs := e } } = c.validate := by
  refine ⟨?_, ?_, ?_⟩
  · intro h
    unfold PretrainConfig.validate
    repeat' split
    all_goals exact ⟨_, rfl⟩
  · intro h
    unfold PretrainConfig.validate
    repeat' split
    all_goals exact ⟨_, rfl⟩
  · unfold PretrainConfig.validate
    dsimp only

/-- C2 witness: instantiation of the amended theorem at a concrete
config with zero batch size and zero learning rate. -/
theorem pretrain_validate_epochs_unchecked_witness :
    (∃ msg, PretrainConfig.validate
        { training := { batch_size := 0, lr := 0 } } = Except.error msg) ∧
    (∃ msg, PretrainConfig.validate
        { training := { batch_size := 0, lr := 0 } } = Except.error msg) := by
  have h := pretrain_validate_epochs_unchecked
    { training := { batch_size := 0, lr := 0 } } 7
  exact ⟨h.1 (by decide), h.2.1 (by decide)⟩

/-- C3: `UniMolRepr.__init__` raises `ValueError` for every model
name other than unimolv1 and unimolv2, and those two names select the
`UniMolModel` and `UniMolV2Model` classes respectively without
error. -/
theorem unimolrepr_unknown_model_name_rejected (model_name : String) :
    (UniMolRepr.select_model model_name = Except.error "Unknown model name" ↔
      model_name ≠ "unimolv1" ∧ model_name ≠ "unimolv2") ∧
    UniMolRepr.select_model "unimolv1" = Except.ok .uniMolModel ∧
    UniMolRepr.select_model "unimolv2" = Except.ok .uniMolV2Model := by
  refine ⟨?_, rfl, rfl⟩
  unfold UniMolRepr.select_model
  split <;> try split
  all_goals simp_all

/-- C4 code-bug evidence: the assignment
`anomaly_clean = target_anomaly_check or target_anomaly_check in [ 'filter' ]`
evaluates Python `or` on the policy value itself, so the documented
pass-through policy string none yields the truthy string none: the
resulting flag is truthy, enabling anomaly filtering, exactly as the
filter policy does, while the default `False` stays falsy. -/
theorem moltrain_anomaly_clean_none_truthy :
    MolTrain.anomaly_clean (.pyStr "none") = .pyStr "none" ∧
    (MolTrain.anomaly_clean (.pyStr "none")).truthy = true ∧
    (MolTrain.anomaly_clean (.pyStr "filter")).truthy = true ∧
    (MolTrain.anomaly_clean (.pyBool false)).truthy = false := by
  refine ⟨rfl, rfl, rfl, rfl⟩

/-- C5: the strict-filtering flag
`smi_strict = smiles_check in [ 'filter' ]` is true exactly when the
`smiles_check` policy value is the string filter. -/
theorem moltrain_smi_strict_iff (smiles_check : PyVal) :
    MolTrain.smi_strict smiles_check = true ↔
      smiles_check = .pyStr "filter" := by
  cases smiles_check <;> simp [MolTrain.smi_strict, pyIn, List.contains]

/-- Helper: membership of task in the classification task-name list of
`MolTrain.fit` is the same as equality with one of the two names. -/
theorem contains_classification_iff (task : String) :
    (["classification", "multilabel_classification"].contains task = true) ↔
      task = "classification" ∨ task = "multilabel_classification" := by
  simp [List.contains]

/-- C6 counterexample: in a `MolTrain.fit` run that writes config.yaml
(save path present, classification task, scaler fitted), the config
write occurs in the step trace strictly before `NNModel.run`, so the
config snapshot is not written after the training loop completes. -/
theorem moltrain_config_write_counterexample :
    MolTrain.FitStep.configWrite ∈ MolTrain.fit_steps true "classification" true ∧
      (MolTrain.fit_steps true "classification" true).indexOf .configWrite <
        (MolTrain.fit_steps true "classification" true).indexOf .modelRun := by
  constructor
  · decide
  · decide

/-- C6 amended: in every `MolTrain.fit` run that writes config.yaml
(save path present), the write happens immediately after data
preparation and strictly before the training loop (`NNModel.run`)
starts, not after it. -/
theorem moltrain_config_write_precedes_run (savePathSome : Bool)
    (task : String) (scalerSome : Bool) (h : savePathSome = true) :
    MolTrain.FitStep.configWrite ∈ MolTrain.fit_steps savePathSome task scalerSome ∧
      (MolTrain.fit_steps savePathSome task scalerSome).indexOf .configWrite <
        (MolTrain.fit_steps savePathSome task scalerSome).indexOf .modelRun := by
  subst h
  unfold MolTrain.fit_steps MolTrain.update_and_save_config_steps
  constructor
  · simp
  · show (1 : ℕ) < 3
    decide

/-- C6 witness: the amended theorem applied at a concrete run
configuration. -/
theorem moltrain_config_write_precedes_run_witness :
    MolTrain.FitStep.configWrite ∈ MolTrain.fit_steps true "regression" false ∧
      (MolTrain.fit_steps true "regression" false).indexOf .configWrite <
        (MolTrain.fit_steps true "regression" false).indexOf .modelRun :=
  moltrain_config_write_precedes_run true "regression" false rfl

/-- C7: the threshold dump step occurs in the `MolTrain.fit` trace
exactly when the configured task is classification or
multilabel_classification; regression, multiclass and
multilabel_regression runs never write threshold.dat. -/
theorem moltrain_threshold_dump_iff_classification (savePathSome : Bool)
    (task : String) (scalerSome : Bool) :
    MolTrain.FitStep.thresholdDump ∈ MolTrain.fit_steps savePathSome task scalerSome ↔
      task = "classification" ∨ task = "multilabel_classification" := by
  unfold MolTrain.fit_steps MolTrain.update_and_save_config_steps
  rw [← contains_classification_iff]
  cases savePathSome <;> cases scalerSome <;> split <;> simp_all

/-- C8: after training, `MolTrain.fit` inverse-transforms the
aggregated raw predictions through the fitted target scaler (when one
exists) to produce `cv_pred`, and the classification threshold is
computed from the inverse-transformed true labels and predictions;
with no scaler both are used unchanged. -/
theorem moltrain_fit_inverse_transform (task : String)
    (s : MolTrain.TargetScaler) (pred target : List ℚ) :
    (MolTrain.fit_outputs task (some s) pred target).cv_pred =
        s.inverseTransform pred ∧
    (MolTrain.fit_outputs task none pred target).cv_pred = pred ∧
    ((task = "classification" ∨ task = "multilabel_classification") →
      (MolTrain.fit_outputs task (some s) pred target).threshold_input =
          some (s.inverseTransform target, s.inverseTransform pred) ∧
      (MolTrain.fit_outputs task none pred target).threshold_input =
          some (target, pred)) := by
  refine ⟨rfl, rfl, fun h => ?_⟩
  rw [← contains_classification_iff] at h
  unfold MolTrain.fit_outputs
  simp only [h, if_true]
  exact ⟨trivial, trivial⟩

/-- C8 witness: the theorem applied at a concrete classification run
with an identity scaler. -/
theorem moltrain_fit_inverse_transform_witness :
    (MolTrain.fit_outputs "classification" (some ⟨id⟩) [1] [2]).cv_pred = [1] ∧
    (MolTrain.fit_outputs "classification" none [1] [2]).cv_pred = [1] ∧
    ((MolTrain.fit_outputs "classification" (some ⟨id⟩) [1] [2]).threshold_input =
        some ([2], [1]) ∧
      (MolTrain.fit_outputs "classification" none [1] [2]).threshold_input =
        some ([2], [1])) := by
  have h := moltrain_fit_inverse_transform "classification" ⟨id⟩ [1] [2]
  exact ⟨h.1, h.2.1, h.2.2 (Or.inl rfl)⟩

/-- C9: a `MolDataset` built without labels has length equal to its
data list and every valid index access yields the data element paired
with the zero label row of length 1; with labels supplied, index `i`
yields exactly `(data[i], label[i])`. -/
theorem moldataset_getitem_spec (α : Type) (data : List α)
    (label : List (List ℚ)) (i : ℕ) (hd : i < data.length)
    (hl : i < label.length) :
    (MolDataset.init data none).len = data.length ∧
    (MolDataset.init data none).getitem i =
        some (data.get ⟨i, hd⟩, List.replicate 1 0) ∧
    (MolDataset.init data (some label)).getitem i =
        some (data.get ⟨i, hd⟩, label.get ⟨i, hl⟩) := by
  refine ⟨rfl, ?_, ?_⟩ <;>
    simp [MolDataset.init, MolDataset.getitem, List.getElem?_eq_getElem, hd, hl]

/-- C9 witness: the theorem applied to a one-element dataset. -/
theorem moldataset_getitem_spec_witness :
    (MolDataset.init ["mol"] none).len = 1 ∧
    (MolDataset.init ["mol"] none).getitem 0 = some ("mol", [0]) ∧
    (MolDataset.init ["mol"] (some [[5]])).getitem 0 = some ("mol", [5]) :=
  moldataset_getitem_spec String ["mol"] [[5]] 0 (by decide) (by decide)

/-- Helper: a string cannot end in both .csv and .sdf, since equal
length suffixes of the same character list coincide. -/
theorem pyEndsWith_csv_not_sdf (s : String)
    (h : UniMolRepr.pyEndsWith s ".csv" = true) :
    UniMolRepr.pyEndsWith s ".sdf" = false := by
  rw [Bool.eq_false_iff]
  intro hb
  unfold UniMolRepr.pyEndsWith at h hb
  rw [List.isSuffixOf_iff_suffix] at h hb
  obtain ⟨t1, h1⟩ := h
  obtain ⟨t2, h2⟩ := hb
  rw [← h1] at h2
  have hlen : t2.length = t1.length := by
    have hc := congrArg List.length h2
    simp [List.length_append] at hc
    omega
  have heq := List.append_inj_right h2 hlen
  exact absurd heq (by decide)

/-- C10: the input dispatch of `UniMolRepr.get_repr` raises
`ValueError` on every input that is not a str, dict, list or numpy
array (including the default `None`); a dict input passes exactly when
it has both the atoms and coordinates keys, failing an assertion
otherwise; and a csv path input passes exactly when the file has a
column literally named SMILES, failing an assertion otherwise (the
model takes no configured smiles-column name: `UniMolRepr` has none to
consult). -/
theorem unimolrepr_get_repr_dispatch_checks (csvColumns : String → List String)
    (d : UniMolRepr.ReprData) :
    ((d = .noneVal ∨ d = .otherVal) →
        UniMolRepr.get_repr_dispatch csvColumns d =
          Except.error .valueError) ∧
    (∀ keys, d = .dict keys →
        (UniMolRepr.get_repr_dispatch csvColumns d = Except.ok () ↔
          keys.contains "atoms" = true ∧ keys.contains "coordinates" = true)) ∧
    (∀ s, d = .str s → UniMolRepr.pyEndsWith s ".csv" = true →
        (UniMolRepr.get_repr_dispatch csvColumns d = Except.ok () ↔
          (csvColumns s).contains "SMILES" = true)) := by
  refine ⟨?_, ?_, ?_⟩
  · rintro (rfl | rfl) <;> rfl
  · rintro keys rfl
    unfold UniMolRepr.get_repr_dispatch
    split <;> simp_all
  · rintro s rfl hcsv
    unfold UniMolRepr.get_repr_dispatch
    dsimp only
    rw [pyEndsWith_csv_not_sdf s hcsv]
    simp [hcsv]

/-- C10 witness: the theorem applied at concrete inputs of each of the
three kinds. -/
theorem unimolrepr_get_repr_dispatch_checks_witness :
    (UniMolRepr.get_repr_dispatch (fun _ => ["SMILES"]) .noneVal =
        Except.error .valueError) ∧
    (UniMolRepr.get_repr_dispatch (fun _ => ["SMILES"])
          (.dict ["atoms", "coordinates"]) = Except.ok () ↔
        (["atoms", "coordinates"].contains "atoms" = true ∧
          ["atoms", "coordinates"].contains "coordinates" = true)) ∧
    (UniMolRepr.get_repr_dispatch (fun _ => ["SMILES"]) (.str "mols.csv") =
          Except.ok () ↔ (["SMILES"].contains "SMILES" = true)) := by
  have h1 := (unimolrepr_get_repr_dispatch_checks (fun _ => ["SMILES"])
    .noneVal).1 (Or.inl rfl)
  have h2 := (unimolrepr_get_repr_dispatch_checks (fun _ => ["SMILES"])
    (.dict ["atoms", "coordinates"])).2.1 ["atoms", "coordinates"] rfl
  have h3 := (unimolrepr_get_repr_dispatch_checks (fun _ => ["SMILES"])
    (.str "mols.csv")).2.2 "mols.csv" rfl (by decide)
  exact ⟨h1, h2, h3⟩

end UnimolTools
